import Mathlib

/-!
Shallow embedding of `scripts/hf_deploy.py`, a HuggingFace Space deployment
script.  The script parses two positional command-line arguments
`(action, target)`, resolves the target against the static `SPACES` registry,
and issues restart/rebuild calls to the HuggingFace API for each resolved
target, printing status lines to the console.

Modelling decisions:
- The `HfApi` client is modelled as a deterministic oracle
  `RemoteClient : RemoteCall → Option String`: `none` means the remote call
  succeeds, `some e` means it raises an exception whose string form is `e`
  (in Python, caught by the `except Exception as e` handler).
- A run of `main` is summarised by a `RunResult`: the list of remote calls
  issued (in order), the list of lines printed to stdout (in order), and the
  process exit status (`sys.exit(1)` gives 1; falling off the end of `main`
  gives 0).
- The Python `str.lower()` method is modelled by `lowerStr`, per-character ASCII
  lowercasing (all strings the script compares against are ASCII).
- `sys.exit(1)` inside the per-target loop terminates the whole process, so
  the loop embedding stops producing calls and output at that point.
-/

namespace HfDeploy

/-- Python `str.lower()` (ASCII lowercasing, per character). -/
def lowerStr (s : String) : String := ⟨s.data.map Char.toLower⟩

/-- `HF_USERNAME = "ben820"` -/
def HF_USERNAME : String := "ben820"

/-- The `SPACES` dict, as an ordered association list (Python dicts preserve
insertion order). -/
def SPACES : List (String × String) :=
  [("backend", HF_USERNAME ++ "/wighaven-backend"),
   ("gateway", HF_USERNAME ++ "/wighaven-gateway")]

/-- Dictionary lookup `SPACES.get(k)`. -/
def spacesFind (k : String) : Option String :=
  (SPACES.find? (fun p => p.fst == k)).map Prod.snd

/-- A remote operation on the HuggingFace API: `api.restart_space(id)` or
`api.restart_space(id, factory_reboot=True)`. -/
inductive RemoteCall where
  | restart (space_id : String)
  | rebuild (space_id : String)
  deriving DecidableEq, Repr

/-- The injected remote client: for each call, `none` if it succeeds and
`some e` if it raises an exception rendering as `e`. -/
def RemoteClient := RemoteCall → Option String

/-- `restart_space(api, space_id)`: prints the banner, issues the restart
call, prints success or the caught exception.  Returns (calls, output). -/
def restart_space (api : RemoteClient) (space_id : String) :
    List RemoteCall × List String :=
  let line :=
    match api (RemoteCall.restart space_id) with
    | none => "✅ " ++ space_id ++ " restart triggered!"
    | some e => "❌ Failed to restart " ++ space_id ++ ": " ++ e
  ([RemoteCall.restart space_id],
   ["🔄 Restarting " ++ space_id ++ "...", line])

/-- `rebuild_space(api, space_id)`: prints the banner, issues the factory
rebuild call, prints success or the caught exception. -/
def rebuild_space (api : RemoteClient) (space_id : String) :
    List RemoteCall × List String :=
  let line :=
    match api (RemoteCall.rebuild space_id) with
    | none => "✅ " ++ space_id ++ " factory rebuild triggered!"
    | some e => "❌ Failed to rebuild " ++ space_id ++ ": " ++ e
  ([RemoteCall.rebuild space_id],
   ["🏭 Factory rebuilding " ++ space_id ++ "...", line])

/-- The module docstring, printed when fewer than two arguments are given. -/
def USAGE : String :=
  "\nHuggingFace Space Deployment Script\nRestart or factory-rebuild HuggingFace Spaces from CLI\n\nUsage:\n  python hf_deploy.py restart backend    # Restart backend space\n  python hf_deploy.py restart gateway    # Restart gateway space  \n  python hf_deploy.py restart all        # Restart all spaces\n  python hf_deploy.py rebuild backend    # Factory rebuild (clears cache)\n\nRequires: pip install huggingface_hub\n"

/-- Outcome of one process run: remote calls issued in order, stdout lines in
order, and the process exit status. -/
structure RunResult where
  calls : List RemoteCall
  output : List String
  exitCode : Nat
  deriving DecidableEq, Repr

/-- The `for t in targets:` loop of `main`.  Each iteration looks up
`SPACES[t]` and dispatches on `action`; an unknown action prints the error
and `sys.exit(1)` terminates the process, so no further iteration runs. -/
def dispatchLoop (api : RemoteClient) (action : String) :
    List String → List RemoteCall × List String × Nat
  | [] => ([], [], 0)
  | t :: ts =>
    let space_id := (spacesFind t).getD ""
    if action == "restart" then
      let r := restart_space api space_id
      let rest := dispatchLoop api action ts
      (r.fst ++ rest.fst, r.snd ++ rest.snd.fst, rest.snd.snd)
    else if action == "rebuild" then
      let r := rebuild_space api space_id
      let rest := dispatchLoop api action ts
      (r.fst ++ rest.fst, r.snd ++ rest.snd.fst, rest.snd.snd)
    else
      ([], ["❌ Unknown action: " ++ action, "Available: restart, rebuild"], 1)

/-- `main()`: `argv` is the full `sys.argv`, program name included.  Fewer
than two user arguments prints the docstring and exits 1; otherwise the
action and target are lowercased, the target is resolved against `SPACES`
(with `"all"` resolving to every key in registration order), and the
per-target loop runs. -/
def main (api : RemoteClient) (argv : List String) : RunResult :=
  if argv.length < 3 then
    { calls := [], output := [USAGE], exitCode := 1 }
  else
    let action := lowerStr (argv.getD 1 "")
    let target := lowerStr (argv.getD 2 "")
    if target == "all" then
      let r := dispatchLoop api action (SPACES.map Prod.fst)
      { calls := r.fst, output := r.snd.fst, exitCode := r.snd.snd }
    else if (spacesFind target).isSome then
      let r := dispatchLoop api action [target]
      { calls := r.fst, output := r.snd.fst, exitCode := r.snd.snd }
    else
      { calls := [],
        output := ["❌ Unknown target: " ++ target,
                   "Available: " ++ String.intercalate ", " (SPACES.map Prod.fst) ++ ", all"],
        exitCode := 1 }

/-- The remote call an action name selects for a given space id. -/
def callFor (a space_id : String) : RemoteCall :=
  if a = "restart" then RemoteCall.restart space_id else RemoteCall.rebuild space_id

/-- A remote client on which every call succeeds. -/
def apiOk : RemoteClient := fun _ => none

/-- A remote client on which restarting the backend space raises "boom" and
every other call succeeds. -/
def apiFailBackend : RemoteClient := fun c =>
  if c = RemoteCall.restart "ben820/wighaven-backend" then some "boom" else none

/-! Helper lemmas -/

theorem charToLower_idem (c : Char) : c.toLower.toLower = c.toLower := by
  by_cases h : c.toNat ≥ 65 ∧ c.toNat ≤ 90
  · have h1 : c.toLower = Char.ofNat (c.toNat + 32) := by
      unfold Char.toLower
      simp [h]
    rw [h1]
    obtain ⟨h65, h90⟩ := h
    generalize c.toNat = n at h65 h90
    interval_cases n <;> decide
  · have h1 : c.toLower = c := by
      unfold Char.toLower
      simp [h]
    rw [h1, h1]

theorem lowerStr_idem (s : String) : lowerStr (lowerStr s) = lowerStr s := by
  show (⟨(s.data.map Char.toLower).map Char.toLower⟩ : String) = ⟨s.data.map Char.toLower⟩
  rw [List.map_map]
  exact congrArg String.mk (List.map_congr_left fun c _ => charToLower_idem c)

theorem spaces_keys : SPACES.map Prod.fst = ["backend", "gateway"] := by decide

theorem spacesFind_backend : spacesFind "backend" = some "ben820/wighaven-backend" := by
  decide

theorem spacesFind_gateway : spacesFind "gateway" = some "ben820/wighaven-gateway" := by
  decide

theorem spaces_concrete :
    SPACES = [("backend", "ben820/wighaven-backend"),
              ("gateway", "ben820/wighaven-gateway")] := by decide

theorem avail_targets_line :
    "Available: " ++ String.intercalate ", " (SPACES.map Prod.fst) ++ ", all"
      = "Available: backend, gateway, all" := by decide

theorem dispatchLoop_exitCode_zero (api : RemoteClient) (a : String)
    (ha : a = "restart" ∨ a = "rebuild") (ts : List String) :
    (dispatchLoop api a ts).snd.snd = 0 := by
  rcases ha with rfl | rfl <;>
    induction ts with
    | nil => rfl
    | cons t ts ih => simp [dispatchLoop, ih]

/-! Claim theorems -/

/-- C1: for every valid single target `t` (a key of `SPACES`) and every valid
action `a` ("restart" or "rebuild"), invoking `main` with arguments
`(a, t)` issues exactly one remote operation — the one matching `a`, on the
resource identifier registered for `t` — and no other remote call. -/
theorem C1_single_target_dispatch (api : RemoteClient) (prog a t sid : String)
    (ht : (t, sid) ∈ SPACES) (ha : a = "restart" ∨ a = "rebuild") :
    (main api [prog, a, t]).calls = [callFor a sid] := by
  rw [spaces_concrete] at ht
  simp only [List.mem_cons, List.not_mem_nil, or_false, Prod.mk.injEq] at ht
  rcases ht with ⟨rfl, rfl⟩ | ⟨rfl, rfl⟩ <;> rcases ha with rfl | rfl <;>
    simp [main, dispatchLoop, restart_space, rebuild_space, callFor,
      spacesFind_backend, spacesFind_gateway,
      show lowerStr "restart" = "restart" from by decide,
      show lowerStr "rebuild" = "rebuild" from by decide,
      show lowerStr "backend" = "backend" from by decide,
      show lowerStr "gateway" = "gateway" from by decide]

/-- C1 witness: `restart backend` issues exactly the restart call on
`ben820/wighaven-backend`. -/
theorem C1_witness :
    ("backend", "ben820/wighaven-backend") ∈ SPACES ∧
    (main apiOk ["hf_deploy.py", "restart", "backend"]).calls
      = [callFor "restart" "ben820/wighaven-backend"] :=
  ⟨by decide,
   C1_single_target_dispatch apiOk "hf_deploy.py" "restart" "backend"
     "ben820/wighaven-backend" (by decide) (Or.inl rfl)⟩

/-- C2: for every valid action, invoking `main` with target "all" issues the
matching remote operation exactly once for every registered target, in
registration order: first on `ben820/wighaven-backend`, then on
`ben820/wighaven-gateway`. -/
theorem C2_all_targets_in_order (api : RemoteClient) (prog a : String)
    (ha : a = "restart" ∨ a = "rebuild") :
    (main api [prog, a, "all"]).calls =
      [callFor a "ben820/wighaven-backend", callFor a "ben820/wighaven-gateway"] := by
  rcases ha with rfl | rfl <;>
    simp [main, dispatchLoop, restart_space, rebuild_space, callFor,
      spaces_keys, spacesFind_backend, spacesFind_gateway,
      show lowerStr "restart" = "restart" from by decide,
      show lowerStr "rebuild" = "rebuild" from by decide,
      show lowerStr "all" = "all" from by decide]

/-- C2 witness: `restart all` issues exactly the two restart calls, backend
first, gateway second. -/
theorem C2_witness :
    ("restart" = "restart" ∨ "restart" = "rebuild") ∧
    (main apiOk ["hf_deploy.py", "restart", "all"]).calls
      = [callFor "restart" "ben820/wighaven-backend",
         callFor "restart" "ben820/wighaven-gateway"] :=
  ⟨Or.inl rfl,
   C2_all_targets_in_order apiOk "hf_deploy.py" "restart" (Or.inl rfl)⟩

/-- C3: if during a `restart all` run the remote client raises for the first
target (the backend space) with detail `e`, the dispatcher catches it, prints
an error line containing the identifier of that target and `e`, and still issues
the remote call for the remaining target (both calls are made, in order). -/
theorem C3_partial_failure_isolation (api : RemoteClient) (prog e : String)
    (hfail : api (RemoteCall.restart "ben820/wighaven-backend") = some e) :
    (main api [prog, "restart", "all"]).calls =
      [RemoteCall.restart "ben820/wighaven-backend",
       RemoteCall.restart "ben820/wighaven-gateway"] ∧
    ("❌ Failed to restart ben820/wighaven-backend: " ++ e)
      ∈ (main api [prog, "restart", "all"]).output := by
  simp [main, dispatchLoop, restart_space, hfail,
    spaces_keys, spacesFind_backend, spacesFind_gateway,
    show lowerStr "restart" = "restart" from by decide,
    show lowerStr "all" = "all" from by decide]

/-- C3 witness: with a client that fails the backend restart with "boom",
both calls are still issued and the error line appears in the output. -/
theorem C3_witness :
    apiFailBackend (RemoteCall.restart "ben820/wighaven-backend") = some "boom" ∧
    ((main apiFailBackend ["hf_deploy.py", "restart", "all"]).calls =
      [RemoteCall.restart "ben820/wighaven-backend",
       RemoteCall.restart "ben820/wighaven-gateway"] ∧
     ("❌ Failed to restart ben820/wighaven-backend: " ++ "boom")
       ∈ (main apiFailBackend ["hf_deploy.py", "restart", "all"]).output) :=
  ⟨by decide,
   C3_partial_failure_isolation apiFailBackend "hf_deploy.py" "boom" (by decide)⟩

/-- C4 counterexample: the claim says an unknown action with target "all" is
reported once per resolved target, i.e. the error line is printed twice for
the two-entry registry.  In the code, `sys.exit(1)` inside the first loop
iteration terminates the process, so the error line is printed only once:
at the concrete input `frobnicate all` its occurrence count is not 2. -/
theorem C4_counterexample :
    ¬ (((main apiOk ["hf_deploy.py", "frobnicate", "all"]).output.filter
        (fun l => l == "❌ Unknown action: frobnicate")).length = 2) := by decide

/-- C4 (amended): when the action is not "restart"/"rebuild" (after
lowercasing) and the target is "all", the unknown-action error is printed
exactly once — during the first loop iteration — and the process exits
non-zero with no remote calls; the remaining targets are not reported. -/
theorem C4_unknown_action_reported_once (api : RemoteClient) (prog a : String)
    (h1 : lowerStr a ≠ "restart") (h2 : lowerStr a ≠ "rebuild") :
    (main api [prog, a, "all"]).output
      = ["❌ Unknown action: " ++ lowerStr a, "Available: restart, rebuild"] ∧
    (main api [prog, a, "all"]).exitCode = 1 ∧
    (main api [prog, a, "all"]).calls = [] := by
  simp [main, dispatchLoop, h1, h2, spaces_keys,
    show lowerStr "all" = "all" from by decide]

/-- C4 witness: `frobnicate all` prints the unknown-action error once and
exits 1 with no remote calls. -/
theorem C4_witness :
    (lowerStr "frobnicate" ≠ "restart" ∧ lowerStr "frobnicate" ≠ "rebuild") ∧
    ((main apiOk ["hf_deploy.py", "frobnicate", "all"]).output
       = ["❌ Unknown action: " ++ lowerStr "frobnicate",
          "Available: restart, rebuild"] ∧
     (main apiOk ["hf_deploy.py", "frobnicate", "all"]).exitCode = 1 ∧
     (main apiOk ["hf_deploy.py", "frobnicate", "all"]).calls = []) :=
  ⟨⟨by decide, by decide⟩,
   C4_unknown_action_reported_once apiOk "hf_deploy.py" "frobnicate"
     (by decide) (by decide)⟩

/-- C5: for every target that resolves (a registry key or "all") and every
action that is neither "restart" nor "rebuild" after lowercasing, the
invocation issues zero remote calls and exits non-zero. -/
theorem C5_invalid_action_aborts_before_calls (api : RemoteClient)
    (prog a t : String) (rest : List String)
    (ht : lowerStr t = "all" ∨ (spacesFind (lowerStr t)).isSome)
    (h1 : lowerStr a ≠ "restart") (h2 : lowerStr a ≠ "rebuild") :
    (main api (prog :: a :: t :: rest)).calls = [] ∧
    (main api (prog :: a :: t :: rest)).exitCode = 1 := by
  have hlen : ¬ (rest.length + 1 + 1 + 1 < 3) := by omega
  by_cases hA : lowerStr t = "all"
  · simp [main, dispatchLoop, hA, h1, h2, spaces_keys, hlen]
  · rcases ht with ht | ht
    · exact absurd ht hA
    · rw [Option.isSome_iff_exists] at ht
      obtain ⟨sid, hsid⟩ := ht
      simp [main, dispatchLoop, hA, hsid, h1, h2, hlen]

/-- C5 witness: `frobnicate gateway` issues no calls and exits 1. -/
theorem C5_witness :
    (lowerStr "gateway" = "all" ∨ (spacesFind (lowerStr "gateway")).isSome) ∧
    (lowerStr "frobnicate" ≠ "restart" ∧ lowerStr "frobnicate" ≠ "rebuild") ∧
    ((main apiOk ["hf_deploy.py", "frobnicate", "gateway"]).calls = [] ∧
     (main apiOk ["hf_deploy.py", "frobnicate", "gateway"]).exitCode = 1) :=
  ⟨Or.inr (by decide), ⟨by decide, by decide⟩,
   C5_invalid_action_aborts_before_calls apiOk "hf_deploy.py" "frobnicate"
     "gateway" [] (Or.inr (by decide)) (by decide) (by decide)⟩

/-- C6: for every target that, after lowercasing, is neither "all" nor a
registry key, the invocation issues zero remote calls, prints an error naming
the unknown target together with the valid targets ("backend, gateway, all"),
and exits non-zero. -/
theorem C6_unknown_target (api : RemoteClient) (prog a t : String)
    (rest : List String)
    (hA : lowerStr t ≠ "all") (hN : spacesFind (lowerStr t) = none) :
    main api (prog :: a :: t :: rest) =
      { calls := [],
        output := ["❌ Unknown target: " ++ lowerStr t,
                   "Available: backend, gateway, all"],
        exitCode := 1 } := by
  simp [main, hA, hN, avail_targets_line]

/-- C6 witness: `restart foo` issues no calls, names the unknown target and
the valid targets, and exits 1. -/
theorem C6_witness :
    (lowerStr "foo" ≠ "all" ∧ spacesFind (lowerStr "foo") = none) ∧
    main apiOk ["hf_deploy.py", "restart", "foo"] =
      { calls := [],
        output := ["❌ Unknown target: " ++ lowerStr "foo",
                   "Available: backend, gateway, all"],
        exitCode := 1 } :=
  ⟨⟨by decide, by decide⟩,
   C6_unknown_target apiOk "hf_deploy.py" "restart" "foo" []
     (by decide) (by decide)⟩

/-- C7: whenever both arguments are supplied, the target resolves and the
action is valid, the process exits with status 0, for every behaviour of the
remote client — per-target remote failures never change the exit status. -/
theorem C7_success_path_exit_zero (api : RemoteClient) (prog a t : String)
    (rest : List String)
    (ha : lowerStr a = "restart" ∨ lowerStr a = "rebuild")
    (ht : lowerStr t = "all" ∨ (spacesFind (lowerStr t)).isSome) :
    (main api (prog :: a :: t :: rest)).exitCode = 0 := by
  by_cases hA : lowerStr t = "all"
  · simp only [main, List.length_cons, List.getD_cons_succ, List.getD_cons_zero]
    rw [if_neg (by simp), if_pos (by simp [hA])]
    exact dispatchLoop_exitCode_zero api _ ha _
  · rcases ht with ht | ht
    · exact absurd ht hA
    · simp only [main, List.length_cons, List.getD_cons_succ, List.getD_cons_zero]
      rw [if_neg (by simp), if_neg (by simp [hA]), if_pos ht]
      exact dispatchLoop_exitCode_zero api _ ha _

/-- C7 witness: `Restart ALL` with a client that fails the backend restart
still exits 0. -/
theorem C7_witness :
    (lowerStr "Restart" = "restart" ∨ lowerStr "Restart" = "rebuild") ∧
    (lowerStr "ALL" = "all" ∨ (spacesFind (lowerStr "ALL")).isSome) ∧
    (main apiFailBackend ["hf_deploy.py", "Restart", "ALL"]).exitCode = 0 :=
  ⟨Or.inl (by decide), Or.inl (by decide),
   C7_success_path_exit_zero apiFailBackend "hf_deploy.py" "Restart" "ALL" []
     (Or.inl (by decide)) (Or.inl (by decide))⟩

/-- C8: for every invocation with fewer than two arguments after the program
name (`sys.argv` shorter than 3), the dispatcher issues zero remote calls,
prints the usage text, and exits non-zero. -/
theorem C8_usage_on_missing_args (api : RemoteClient) (argv : List String)
    (h : argv.length < 3) :
    main api argv = { calls := [], output := [USAGE], exitCode := 1 } := by
  simp [main, h]

/-- C8 witness: invoking with no user arguments prints usage and exits 1
with no remote calls. -/
theorem C8_witness :
    ["hf_deploy.py"].length < 3 ∧
    main apiOk ["hf_deploy.py"] = { calls := [], output := [USAGE], exitCode := 1 } :=
  ⟨by decide, C8_usage_on_missing_args apiOk ["hf_deploy.py"] (by decide)⟩

/-- C9: the action and target arguments are case-insensitive: any invocation
behaves identically (same remote calls, same output, same exit status) to the
invocation with both arguments lowercased. -/
theorem C9_case_insensitive (api : RemoteClient) (prog a t : String)
    (rest : List String) :
    main api (prog :: a :: t :: rest)
      = main api (prog :: lowerStr a :: lowerStr t :: rest) := by
  simp only [main, List.length_cons, List.getD_cons_succ, List.getD_cons_zero,
    lowerStr_idem]

/-- C10: arguments beyond the first two are ignored: two invocations with the
same action and target but different trailing arguments have identical
behaviour (same remote calls, same output, same exit status). -/
theorem C10_extra_args_ignored (api : RemoteClient) (prog a t : String)
    (rest₁ rest₂ : List String) :
    main api (prog :: a :: t :: rest₁) = main api (prog :: a :: t :: rest₂) := by
  have h1 : ¬ ((prog :: a :: t :: rest₁).length < 3) := by
    simp only [List.length_cons]
    omega
  have h2 : ¬ ((prog :: a :: t :: rest₂).length < 3) := by
    simp only [List.length_cons]
    omega
  simp only [main, if_neg h1, if_neg h2, List.getD_cons_succ, List.getD_cons_zero]

end HfDeploy
